import Mathlib

/-!
Shallow embedding of the FPGASoundSynth core (src/src/core and src/src/engine
and src/src/effects) and proofs about its specification.

Numeric convention: the C++ code computes with IEEE doubles; the embedding
models the arithmetic exactly over the rationals (and over the reals where a
transcendental coefficient formula is stated).  Transcendental functions that
the code calls (std::sin, std::exp, std::pow) and the pseudo random noise
source are passed in as explicit function parameters, so every structural
aspect of the code (branching, clamping, update order, state) is embedded
faithfully while the transcendental values stay abstract.

SAMPLE_RATE is the constant 192000 from types.hpp, NYQUIST is 192000 / 2.
-/

namespace FPGASynth

/-- The std clamp function from types.hpp / the standard library:
`(v < lo) ? lo : (hi < v) ? hi : v`. -/
def clampv {K : Type} [LinearOrder K] (v lo hi : K) : K :=
  if v < lo then lo else if hi < v then hi else v

theorem clampv_eq_max_min {K : Type} [LinearOrder K] (v lo hi : K) (h : lo ≤ hi) :
    clampv v lo hi = max lo (min hi v) := by
  unfold clampv
  split_ifs with hvlo hhiv
  · rw [min_eq_right (le_of_lt (lt_of_lt_of_le hvlo h)), max_eq_left (le_of_lt hvlo)]
  · rw [min_eq_left (le_of_lt hhiv), max_eq_right h]
  · rw [min_eq_right (not_lt.mp hhiv), max_eq_right (not_lt.mp hvlo)]

namespace ADSR

/-- The five envelope stages of ADSR (envelope.hpp). -/
inductive Stage
  | idle
  | attack
  | decay
  | sustain
  | release
  deriving DecidableEq, Repr

/-- State of one ADSR envelope generator (envelope.hpp).  The three
coefficients are stored exactly as in the C++ object; they are recomputed by
`updateCoefficients` from the times through an abstract coefficient map. -/
structure State where
  stage : Stage
  output : ℚ
  releaseLevel : ℚ
  attackTime : ℚ
  decayTime : ℚ
  sustainLevel : ℚ
  releaseTime : ℚ
  attackCoef : ℚ
  decayCoef : ℚ
  releaseCoef : ℚ
  deriving DecidableEq, Repr

/-- `ADSR::updateCoefficients`.  `coefOf t` stands for the double value
`1 - exp(-2.2 / (t * SAMPLE_RATE))`; the exponential is kept abstract. -/
def updateCoefficients (coefOf : ℚ → ℚ) (s : State) : State :=
  { s with attackCoef := coefOf s.attackTime
           decayCoef := coefOf s.decayTime
           releaseCoef := coefOf s.releaseTime }

/-- `ADSR::setAttack`: clamp to [0.001, 10.0] then update coefficients. -/
def setAttack (coefOf : ℚ → ℚ) (t : ℚ) (s : State) : State :=
  updateCoefficients coefOf { s with attackTime := clampv t (1/1000) 10 }

/-- `ADSR::setDecay`. -/
def setDecay (coefOf : ℚ → ℚ) (t : ℚ) (s : State) : State :=
  updateCoefficients coefOf { s with decayTime := clampv t (1/1000) 10 }

/-- `ADSR::setSustain`: clamp to [0.0, 1.0]; does not touch coefficients. -/
def setSustain (level : ℚ) (s : State) : State :=
  { s with sustainLevel := clampv level 0 1 }

/-- `ADSR::setRelease`. -/
def setRelease (coefOf : ℚ → ℚ) (t : ℚ) (s : State) : State :=
  updateCoefficients coefOf { s with releaseTime := clampv t (1/1000) 10 }

/-- `ADSR::noteOn`: jump to ATTACK, output untouched. -/
def noteOn (s : State) : State := { s with stage := Stage.attack }

/-- `ADSR::noteOff`: from any non IDLE stage move to RELEASE and latch the
release level; from IDLE do nothing. -/
def noteOff (s : State) : State :=
  if s.stage ≠ Stage.idle then
    { s with stage := Stage.release, releaseLevel := s.output }
  else s

/-- `ADSR::reset`: hard reset to IDLE with output 0. -/
def reset (s : State) : State := { s with stage := Stage.idle, output := 0 }

/-- `ADSR::process`, one sample step, transcribed from the switch in
envelope.hpp lines 98 to 129.  The returned sample is the `output` field of
the resulting state. -/
def process (s : State) : State :=
  match s.stage with
  | Stage.idle => { s with output := 0 }
  | Stage.attack =>
      let o := s.output + s.attackCoef * (13/10 - s.output)
      if 1 ≤ o then { s with output := 1, stage := Stage.decay }
      else { s with output := o }
  | Stage.decay =>
      let o := s.output + s.decayCoef * (s.sustainLevel - s.output)
      if o ≤ s.sustainLevel + 1/1000 then
        { s with output := s.sustainLevel, stage := Stage.sustain }
      else { s with output := o }
  | Stage.sustain => { s with output := s.sustainLevel }
  | Stage.release =>
      let o := s.output + s.releaseCoef * (0 - s.output)
      if o ≤ 1/1000 then { s with output := 0, stage := Stage.idle }
      else { s with output := o }

/-- `ADSR::isActive`: true whenever the stage is not IDLE. -/
def isActive (s : State) : Bool := s.stage ≠ Stage.idle

/-- One process step as described word for word by claim C1 and the spec
sentence it quotes: identical to the code except that the Decay stage is said
to exit when the updated output comes within 0.001 of the sustain level
(a two sided distance condition). -/
def claimStep (s : State) : State :=
  match s.stage with
  | Stage.idle => { s with output := 0 }
  | Stage.attack =>
      let o := s.output + s.attackCoef * (13/10 - s.output)
      if 1 ≤ o then { s with output := 1, stage := Stage.decay }
      else { s with output := o }
  | Stage.decay =>
      let o := s.output + s.decayCoef * (s.sustainLevel - s.output)
      if |o - s.sustainLevel| ≤ 1/1000 then
        { s with output := s.sustainLevel, stage := Stage.sustain }
      else { s with output := o }
  | Stage.sustain => { s with output := s.sustainLevel }
  | Stage.release =>
      let o := s.output + s.releaseCoef * (0 - s.output)
      if o ≤ 1/1000 then { s with output := 0, stage := Stage.idle }
      else { s with output := o }

/-- One process step under the amended reading of claim C1: the Decay exit
condition is the one sided test `updated output ≤ sustain level + 0.001` used
by the code. -/
def amendedStep (s : State) : State :=
  match s.stage with
  | Stage.idle => { s with output := 0 }
  | Stage.attack =>
      let o := s.output + s.attackCoef * (13/10 - s.output)
      if 1 ≤ o then { s with output := 1, stage := Stage.decay }
      else { s with output := o }
  | Stage.decay =>
      let o := s.output + s.decayCoef * (s.sustainLevel - s.output)
      if o ≤ s.sustainLevel + 1/1000 then
        { s with output := s.sustainLevel, stage := Stage.sustain }
      else { s with output := o }
  | Stage.sustain => { s with output := s.sustainLevel }
  | Stage.release =>
      let o := s.output + s.releaseCoef * (0 - s.output)
      if o ≤ 1/1000 then { s with output := 0, stage := Stage.idle }
      else { s with output := o }

/-- A Decay state with clamped parameters on which the code and the literal
claim C1 disagree: the sustain level was raised (by the clamped setter, to
0.5) far above the current output 0, so the one sided code test snaps the
output to the sustain level while the output is nowhere near within 0.001 of
it.  The decay coefficient 1/500000 corresponds to a decay time inside the
clamp interval [0.001, 10] at 192 kHz. -/
def decayJumpState : State :=
  { stage := Stage.decay
    output := 0
    releaseLevel := 0
    attackTime := 1/100
    decayTime := 57/10
    sustainLevel := 1/2
    releaseTime := 3/10
    attackCoef := 1/100
    decayCoef := 1/500000
    releaseCoef := 1/100 }

/-- The calls a user of one ADSR object can make between samples, per claim
C9: note on, note off, and one process step. -/
inductive Op
  | noteOnCall
  | noteOffCall
  | processCall
  deriving DecidableEq, Repr

/-- Apply one call to the envelope state. -/
def applyOp : Op → State → State
  | Op.noteOnCall, s => noteOn s
  | Op.noteOffCall, s => noteOff s
  | Op.processCall, s => process s

/-- Run a sequence of calls left to right. -/
def run : List Op → State → State
  | [], s => s
  | o :: os, s => run os (applyOp o s)

/-- The envelope state right after the constructor `ADSR()` (stage IDLE,
output 0, times 0.01 / 0.1 / 0.7 / 0.3, coefficients from the abstract
coefficient map).  The releaseLevel field is uninitialized in the C++
constructor; it is modelled as 0 and never read before being written. -/
def initState (coefOf : ℚ → ℚ) : State :=
  updateCoefficients coefOf
    { stage := Stage.idle
      output := 0
      releaseLevel := 0
      attackTime := 1/100
      decayTime := 1/10
      sustainLevel := 7/10
      releaseTime := 3/10
      attackCoef := 0
      decayCoef := 0
      releaseCoef := 0 }

/-- The range invariant used for claim C9. -/
def outputInRange (s : State) : Prop := 0 ≤ s.output ∧ s.output ≤ 1

/-- Clamped-parameter hypothesis for claim C9: the sustain level is in [0,1]
(as `setSustain` guarantees) and each stage coefficient lies in [0,1] (the
formula `1 - exp(-2.2/(t * SAMPLE_RATE))` lands in (0,1) for every clamped
time t). -/
def paramsClamped (s : State) : Prop :=
  0 ≤ s.sustainLevel ∧ s.sustainLevel ≤ 1 ∧
  0 ≤ s.attackCoef ∧ s.attackCoef ≤ 1 ∧
  0 ≤ s.decayCoef ∧ s.decayCoef ≤ 1 ∧
  0 ≤ s.releaseCoef ∧ s.releaseCoef ≤ 1

theorem applyOp_params (o : Op) (s : State) :
    (applyOp o s).sustainLevel = s.sustainLevel ∧
    (applyOp o s).attackCoef = s.attackCoef ∧
    (applyOp o s).decayCoef = s.decayCoef ∧
    (applyOp o s).releaseCoef = s.releaseCoef := by
  obtain ⟨st, o', rl, ta, td, sl, tr, ca, cd, cr⟩ := s
  cases o
  case noteOnCall => exact ⟨rfl, rfl, rfl, rfl⟩
  case noteOffCall =>
    simp only [applyOp, noteOff]
    split <;> exact ⟨rfl, rfl, rfl, rfl⟩
  case processCall =>
    cases st <;> refine ⟨?_, ?_, ?_, ?_⟩ <;> simp only [applyOp, process] <;>
      (try split) <;> rfl

theorem applyOp_range (o : Op) (s : State)
    (hp : paramsClamped s) (hr : outputInRange s) :
    outputInRange (applyOp o s) := by
  obtain ⟨hs0, hs1, ha0, ha1, hd0, hd1, hr0, hr1⟩ := hp
  obtain ⟨ho0, ho1⟩ := hr
  cases o
  case noteOnCall => exact ⟨ho0, ho1⟩
  case noteOffCall =>
    simp only [applyOp, noteOff]
    split <;> exact ⟨ho0, ho1⟩
  case processCall =>
    obtain ⟨st, o', rl, ta, td, sl, tr, ca, cd, cr⟩ := s
    simp only at hs0 hs1 ha0 ha1 hd0 hd1 hr0 hr1 ho0 ho1
    cases st
    case idle => exact ⟨le_refl 0, by show (0:ℚ) ≤ 1; norm_num⟩
    case attack =>
      simp only [applyOp, process]
      split
      case isTrue h => exact ⟨by show (0:ℚ) ≤ 1; norm_num, le_refl 1⟩
      case isFalse h =>
        refine ⟨?_, ?_⟩
        · show 0 ≤ o' + ca * (13/10 - o')
          nlinarith
        · show o' + ca * (13/10 - o') ≤ 1
          linarith [not_le.mp h]
    case decay =>
      simp only [applyOp, process]
      split
      case isTrue h => exact ⟨hs0, hs1⟩
      case isFalse h =>
        refine ⟨?_, ?_⟩
        · show 0 ≤ o' + cd * (sl - o')
          have := not_le.mp h
          linarith
        · show o' + cd * (sl - o') ≤ 1
          nlinarith
    case sustain => exact ⟨hs0, hs1⟩
    case release =>
      simp only [applyOp, process]
      split
      case isTrue h => exact ⟨le_refl 0, by show (0:ℚ) ≤ 1; norm_num⟩
      case isFalse h =>
        refine ⟨?_, ?_⟩
        · show 0 ≤ o' + cr * (0 - o')
          have := not_le.mp h
          linarith
        · show o' + cr * (0 - o') ≤ 1
          nlinarith

theorem run_range (ops : List Op) (s : State)
    (hp : paramsClamped s) (hr : outputInRange s) :
    outputInRange (run ops s) := by
  induction ops generalizing s with
  | nil => exact hr
  | cons o os ih =>
      have hpq := applyOp_params o s
      exact ih (applyOp o s)
        ⟨hpq.1 ▸ hp.1, hpq.1 ▸ hp.2.1, hpq.2.1 ▸ hp.2.2.1, hpq.2.1 ▸ hp.2.2.2.1,
         hpq.2.2.1 ▸ hp.2.2.2.2.1, hpq.2.2.1 ▸ hp.2.2.2.2.2.1,
         hpq.2.2.2 ▸ hp.2.2.2.2.2.2.1, hpq.2.2.2 ▸ hp.2.2.2.2.2.2.2⟩
        (applyOp_range o s hp hr)

end ADSR

/-- C9: for every ADSR envelope whose parameters are clamped (sustain level
in [0,1], stage coefficients in [0,1]) and every sequence of noteOn, noteOff
and process calls starting from the initial (constructor) state, the envelope
output, which is exactly the value returned by `process()`, stays in [0,1];
the 1.3 attack target never pushes the returned value above 1 because the
code clamps the output to 1.0 before returning. -/
theorem adsr_c9_output_in_unit_interval (coefOf : ℚ → ℚ) (s0 : ADSR.State)
    (hinit : s0 = ADSR.initState coefOf) (hp : ADSR.paramsClamped s0)
    (ops : List ADSR.Op) :
    0 ≤ (ADSR.run ops s0).output ∧ (ADSR.run ops s0).output ≤ 1 :=
  ADSR.run_range ops s0 hp
    (by rw [hinit]; constructor <;> norm_num [ADSR.initState, ADSR.updateCoefficients])

/-- Witness for C9: a concrete coefficient map, the constructor state, and a
concrete call sequence exercising attack, decay and release. -/
theorem adsr_c9_witness :
    0 ≤ (ADSR.run
          [ADSR.Op.noteOnCall, ADSR.Op.processCall, ADSR.Op.processCall, ADSR.Op.noteOffCall, ADSR.Op.processCall]
          (ADSR.initState (fun _ => 1/2))).output ∧
      (ADSR.run
          [ADSR.Op.noteOnCall, ADSR.Op.processCall, ADSR.Op.processCall, ADSR.Op.noteOffCall, ADSR.Op.processCall]
          (ADSR.initState (fun _ => 1/2))).output ≤ 1 :=
  adsr_c9_output_in_unit_interval (fun _ => 1/2) (ADSR.initState (fun _ => 1/2)) rfl
    (by norm_num [ADSR.paramsClamped, ADSR.initState, ADSR.updateCoefficients])
    [ADSR.Op.noteOnCall, ADSR.Op.processCall, ADSR.Op.processCall, ADSR.Op.noteOffCall, ADSR.Op.processCall]

/-- C1 counterexample: on `decayJumpState` (clamped parameters: sustain level
in [0,1], times in [0.001,10], coefficients in (0,1)) the code step does not
agree with the step described by the claim: the code snaps the output from
0.000001 straight to the sustain level 0.5 although it is not within 0.001 of
it. -/
theorem adsr_c1_counterexample :
    (0 ≤ ADSR.decayJumpState.sustainLevel ∧ ADSR.decayJumpState.sustainLevel ≤ 1) ∧
    ADSR.process ADSR.decayJumpState ≠ ADSR.claimStep ADSR.decayJumpState := by
  refine ⟨⟨by norm_num [ADSR.decayJumpState], by norm_num [ADSR.decayJumpState]⟩, ?_⟩
  have h1 : (ADSR.process ADSR.decayJumpState).stage = ADSR.Stage.sustain := by
    simp only [ADSR.process, ADSR.decayJumpState]
    rw [if_pos (by norm_num)]
  have h2 : (ADSR.claimStep ADSR.decayJumpState).stage = ADSR.Stage.decay := by
    simp only [ADSR.claimStep, ADSR.decayJumpState]
    rw [if_neg (by rw [abs_le]; norm_num)]
  intro h
  rw [h] at h1
  rw [h1] at h2
  exact absurd h2 (by simp)

/-- C1 amended: one `process()` step of the ADSR envelope behaves exactly as
the claim describes in the Attack and Release stages, and in the Decay stage
with the exit condition amended to the one sided test
`updated output ≤ sustain level + 0.001`; moreover whenever the output is at
or above the sustain level (which holds in every Decay stage reached without
raising the sustain level mid decay) and the decay coefficient lies in [0,1],
the amended exit condition coincides with the two sided condition of the
original claim. -/
theorem adsr_c1_amended (s : ADSR.State)
    (hd0 : 0 ≤ s.decayCoef) (hd1 : s.decayCoef ≤ 1) (hos : s.sustainLevel ≤ s.output) :
    ADSR.process s = ADSR.amendedStep s ∧ ADSR.claimStep s = ADSR.amendedStep s := by
  obtain ⟨st, o, rl, ta, td, sl, tr, ca, cd, cr⟩ := s
  simp only at hd0 hd1 hos
  cases st
  case decay =>
    refine ⟨rfl, ?_⟩
    have hkey : sl ≤ o + cd * (sl - o) := by nlinarith
    have habs : |o + cd * (sl - o) - sl| = o + cd * (sl - o) - sl :=
      abs_of_nonneg (by linarith)
    simp only [ADSR.claimStep, ADSR.amendedStep]
    refine if_congr ?_ rfl rfl
    rw [habs]
    constructor <;> intro <;> linarith
  all_goals exact ⟨rfl, rfl⟩

/-- Witness for the amended C1 theorem at a concrete clamped Decay state. -/
theorem adsr_c1_amended_witness :
    ADSR.process { ADSR.decayJumpState with output := 1 }
        = ADSR.amendedStep { ADSR.decayJumpState with output := 1 } ∧
    ADSR.claimStep { ADSR.decayJumpState with output := 1 }
        = ADSR.amendedStep { ADSR.decayJumpState with output := 1 } :=
  adsr_c1_amended { ADSR.decayJumpState with output := 1 }
    (by norm_num [ADSR.decayJumpState]) (by norm_num [ADSR.decayJumpState])
    (by norm_num [ADSR.decayJumpState])

/-- Waveform mixing levels (struct WaveMix, oscillator.hpp). -/
structure WaveMix where
  sine : ℚ
  triangle : ℚ
  sawtooth : ℚ
  square : ℚ
  noise : ℚ
  deriving DecidableEq, Repr

namespace MixingOscillator

/-- State of one MixingOscillator (oscillator.hpp lines 207 to 353). -/
structure State where
  phase : ℚ
  phaseIncrement : ℚ
  pulseWidth : ℚ
  mix : WaveMix
  deriving DecidableEq, Repr

/-- `frequencyToPhaseIncrement` from types.hpp: `freq / SAMPLE_RATE`. -/
def frequencyToPhaseIncrement (freq : ℚ) : ℚ := freq / 192000

/-- `MixingOscillator::setFrequency`. -/
def setFrequency (freq : ℚ) (s : State) : State :=
  { s with phaseIncrement := frequencyToPhaseIncrement freq }

/-- `MixingOscillator::sync`: reset phase to 0. -/
def sync (s : State) : State := { s with phase := 0 }

/-- `MixingOscillator::setMix(const WaveMix &)`: direct assignment, no
clamping. -/
def setMixW (m : WaveMix) (s : State) : State := { s with mix := m }

/-- `MixingOscillator::setMix(sine, tri, saw, sqr, noise)`: each level is
clamped to [0,1]. -/
def setMix (sn tri saw sq noi : ℚ) (s : State) : State :=
  { s with mix :=
      { sine := clampv sn 0 1
        triangle := clampv tri 0 1
        sawtooth := clampv saw 0 1
        square := clampv sq 0 1
        noise := clampv noi 0 1 } }

/-- The total of the five mix weights, as computed at the top of
`MixingOscillator::process`. -/
def totalMix (m : WaveMix) : ℚ :=
  m.sine + m.triangle + m.sawtooth + m.square + m.noise

/-- `MixingOscillator::advancePhase`: add the increment and subtract 1 once
when the result is ≥ 1. -/
def advancePhase (phase inc : ℚ) : ℚ :=
  if 1 ≤ phase + inc then phase + inc - 1 else phase + inc

/-- `MixingOscillator::polyBlep` (the variant that guards `dt <= 0`). -/
def polyBlep (dt t : ℚ) : ℚ :=
  if dt ≤ 0 then 0
  else if t < dt then
    let u := t / dt
    u + u - u * u - 1
  else if 1 - dt < t then
    let u := (t - 1) / dt
    u * u + u + u + 1
  else 0

/-- `MixingOscillator::processTriangle`. -/
def processTriangle (s : State) : ℚ :=
  if s.phase < 1/2 then 4 * s.phase - 1 else 3 - 4 * s.phase

/-- `MixingOscillator::processSaw`. -/
def processSaw (s : State) : ℚ :=
  2 * s.phase - 1 - polyBlep s.phaseIncrement s.phase

/-- `MixingOscillator::processSquare`.  `Int.fract` plays the role of
`std::fmod(x, 1.0)` on the nonnegative arguments arising here. -/
def processSquare (s : State) : ℚ :=
  (if s.phase < s.pulseWidth then 1 else -1)
    + polyBlep s.phaseIncrement s.phase
    - polyBlep s.phaseIncrement (Int.fract (s.phase + (1 - s.pulseWidth)))

/-- `MixingOscillator::process`.  `sineF p` stands for `std::sin(TWO_PI * p)`
and `noiseV` for the pseudo random draw of this call; both are passed in so
the surrounding structure (guarded weighted sum, normalization by the weight
total, early silence branch, phase advance) is exact. -/
def process (sineF : ℚ → ℚ) (noiseV : ℚ) (s : State) : ℚ × State :=
  let total := totalMix s.mix
  let s2 : State := { s with phase := advancePhase s.phase s.phaseIncrement }
  if total ≤ 0 then (0, s2)
  else
    let out :=
      (if 0 < s.mix.sine then s.mix.sine * sineF s.phase else 0) +
      (if 0 < s.mix.triangle then s.mix.triangle * processTriangle s else 0) +
      (if 0 < s.mix.sawtooth then s.mix.sawtooth * processSaw s else 0) +
      (if 0 < s.mix.square then s.mix.square * processSquare s else 0) +
      (if 0 < s.mix.noise then s.mix.noise * noiseV else 0)
    (out / total, s2)

/-- Iterate `process` N times, feeding a stream of noise draws; the sine map
stays fixed (it only models the library sine function). -/
def processN (sineF : ℚ → ℚ) (noiseSeq : ℕ → ℚ) : ℕ → State → State
  | 0, s => s
  | n + 1, s => processN sineF noiseSeq n (process sineF (noiseSeq n) s).2

/-- A mix scaled weightwise by a constant. -/
def scaleMix (c : ℚ) (m : WaveMix) : WaveMix :=
  { sine := c * m.sine
    triangle := c * m.triangle
    sawtooth := c * m.sawtooth
    square := c * m.square
    noise := c * m.noise }

/-- The default constructed oscillator: phase 0, increment 0, pulse width
0.5, pure sawtooth mix. -/
def initState : State :=
  { phase := 0
    phaseIncrement := 0
    pulseWidth := 1/2
    mix := { sine := 0, triangle := 0, sawtooth := 1, square := 0, noise := 0 } }

theorem process_snd (sineF : ℚ → ℚ) (noiseV : ℚ) (s : State) :
    (process sineF noiseV s).2
      = { s with phase := advancePhase s.phase s.phaseIncrement } := by
  by_cases h : totalMix s.mix ≤ 0
  · unfold process
    rw [if_pos h]
  · unfold process
    rw [if_neg h]

end MixingOscillator

/-- C4: whenever the five wave mix weights total at most 0, `process()`
returns exactly 0 without dividing by the total, and the phase accumulator
still advances by the usual increment (with the usual wrap) on that call;
all other state is untouched. -/
theorem mixosc_c4_silence_on_zero_mix (sineF : ℚ → ℚ) (noiseV : ℚ)
    (s : MixingOscillator.State)
    (h : MixingOscillator.totalMix s.mix ≤ 0) :
    (MixingOscillator.process sineF noiseV s).1 = 0 ∧
    (MixingOscillator.process sineF noiseV s).2
      = { s with phase := MixingOscillator.advancePhase s.phase s.phaseIncrement } := by
  unfold MixingOscillator.process
  rw [if_pos h]
  exact ⟨rfl, rfl⟩

/-- Witness for C4 at the all zero mix. -/
theorem mixosc_c4_witness :
    (MixingOscillator.process (fun _ => 0) 0
        { MixingOscillator.initState with
            mix := { sine := 0, triangle := 0, sawtooth := 0, square := 0, noise := 0 } }).1
      = 0 :=
  (mixosc_c4_silence_on_zero_mix (fun _ => 0) 0 _ (by norm_num [MixingOscillator.totalMix])).1

theorem scaled_guard_term (c w g : ℚ) (hc : 0 < c) :
    (if 0 < c * w then c * w * g else 0) = c * (if 0 < w then w * g else 0) := by
  by_cases hw : 0 < w
  · rw [if_pos hw, if_pos (mul_pos hc hw)]
    ring
  · rw [if_neg hw, if_neg ?_]
    · ring
    · intro hcw
      exact hw (by nlinarith)

theorem processTriangle_set_mix (s : MixingOscillator.State) (m : WaveMix) :
    MixingOscillator.processTriangle { s with mix := m }
      = MixingOscillator.processTriangle s := rfl

theorem processSaw_set_mix (s : MixingOscillator.State) (m : WaveMix) :
    MixingOscillator.processSaw { s with mix := m }
      = MixingOscillator.processSaw s := rfl

theorem processSquare_set_mix (s : MixingOscillator.State) (m : WaveMix) :
    MixingOscillator.processSquare { s with mix := m }
      = MixingOscillator.processSquare s := rfl

theorem process_fst_scale (sineF : ℚ → ℚ) (noiseV c : ℚ)
    (s : MixingOscillator.State) (m : WaveMix) (hc : 0 < c) :
    (MixingOscillator.process sineF noiseV
        { s with mix := MixingOscillator.scaleMix c m }).1
      = (MixingOscillator.process sineF noiseV { s with mix := m }).1 := by
  have htot : MixingOscillator.totalMix (MixingOscillator.scaleMix c m)
      = c * MixingOscillator.totalMix m := by
    simp only [MixingOscillator.totalMix, MixingOscillator.scaleMix]
    ring
  by_cases h : MixingOscillator.totalMix m ≤ 0
  · have h2 : MixingOscillator.totalMix (MixingOscillator.scaleMix c m) ≤ 0 := by
      rw [htot]; nlinarith
    unfold MixingOscillator.process
    rw [if_pos h, if_pos h2]
  · have h2 : ¬ MixingOscillator.totalMix (MixingOscillator.scaleMix c m) ≤ 0 := by
      rw [htot]
      intro hco
      exact h (by nlinarith)
    unfold MixingOscillator.process
    rw [if_neg h, if_neg h2]
    dsimp only
    simp only [MixingOscillator.scaleMix, processTriangle_set_mix, processSaw_set_mix,
      processSquare_set_mix]
    rw [scaled_guard_term c m.sine _ hc, scaled_guard_term c m.triangle _ hc,
      scaled_guard_term c m.sawtooth _ hc, scaled_guard_term c m.square _ hc,
      scaled_guard_term c m.noise _ hc]
    set a1 := (if 0 < m.sine then m.sine * sineF s.phase else 0) with ha1
    set a2 := (if 0 < m.triangle then m.triangle * MixingOscillator.processTriangle s else 0)
      with ha2
    set a3 := (if 0 < m.sawtooth then m.sawtooth * MixingOscillator.processSaw s else 0)
      with ha3
    set a4 := (if 0 < m.square then m.square * MixingOscillator.processSquare s else 0)
      with ha4
    set a5 := (if 0 < m.noise then m.noise * noiseV else 0) with ha5
    simp only [MixingOscillator.totalMix]
    rw [show c * a1 + c * a2 + c * a3 + c * a4 + c * a5
          = c * (a1 + a2 + a3 + a4 + a5) by ring]
    rw [show c * m.sine + c * m.triangle + c * m.sawtooth + c * m.square + c * m.noise
          = c * (m.sine + m.triangle + m.sawtooth + m.square + m.noise) by ring]
    exact mul_div_mul_left _ _ hc.ne'

/-- C5: the MixingOscillator output is invariant under positive rescaling of
the wave mix weights (the weighted waveform sum is divided by the weight
total at process time), and in particular the mix {sine 2, triangle 2} gives
exactly the same output sample as the mix {sine 0.5, triangle 0.5}; the state
after the call (phase included) is the same aside from the weights. -/
theorem mixosc_c5_rescale_invariant (sineF : ℚ → ℚ) (noiseV c : ℚ)
    (s : MixingOscillator.State) (hc : 0 < c) :
    ((MixingOscillator.process sineF noiseV
        { s with mix := MixingOscillator.scaleMix c s.mix }).1
      = (MixingOscillator.process sineF noiseV s).1 ∧
     (MixingOscillator.process sineF noiseV
        { s with mix := MixingOscillator.scaleMix c s.mix }).2.phase
      = (MixingOscillator.process sineF noiseV s).2.phase) ∧
    (MixingOscillator.process sineF noiseV
        { s with mix := ⟨2, 2, 0, 0, 0⟩ }).1
      = (MixingOscillator.process sineF noiseV
        { s with mix := ⟨1/2, 1/2, 0, 0, 0⟩ }).1 := by
  refine ⟨⟨?_, ?_⟩, ?_⟩
  · have h := process_fst_scale sineF noiseV c s s.mix hc
    simpa using h
  · rw [MixingOscillator.process_snd, MixingOscillator.process_snd]
  · have h := process_fst_scale sineF noiseV 4 s ⟨1/2, 1/2, 0, 0, 0⟩ (by norm_num)
    have hmix : MixingOscillator.scaleMix 4 (⟨1/2, 1/2, 0, 0, 0⟩ : WaveMix)
        = (⟨2, 2, 0, 0, 0⟩ : WaveMix) := by
      simp only [MixingOscillator.scaleMix]
      norm_num
    rw [hmix] at h
    exact h

/-- Witness for C5 at a concrete oscillator state and scale factor. -/
theorem mixosc_c5_witness :
    (MixingOscillator.process (fun _ => 0) 0
        { MixingOscillator.initState with
            mix := MixingOscillator.scaleMix 3 MixingOscillator.initState.mix }).1
      = (MixingOscillator.process (fun _ => 0) 0 MixingOscillator.initState).1 :=
  ((mixosc_c5_rescale_invariant (fun _ => 0) 0 3 MixingOscillator.initState
      (by norm_num)).1).1

theorem advancePhase_fract (x inc : ℚ) (h0 : 0 ≤ inc) (h1 : inc < 1) :
    MixingOscillator.advancePhase (Int.fract x) inc = Int.fract (x + inc) := by
  have hfr0 : 0 ≤ Int.fract x := Int.fract_nonneg x
  have hfr1 : Int.fract x < 1 := Int.fract_lt_one x
  have heq : Int.fract (x + inc) = Int.fract (Int.fract x + inc) := by
    conv_lhs => rw [← Int.floor_add_fract x, add_assoc, Int.fract_int_add]
  unfold MixingOscillator.advancePhase
  split
  case isTrue h =>
    have hfl : ⌊Int.fract x + inc⌋ = 1 := by
      rw [Int.floor_eq_iff]
      constructor
      · push_cast
        linarith
      · push_cast
        linarith
    rw [heq,
      show Int.fract (Int.fract x + inc)
          = Int.fract x + inc - (⌊Int.fract x + inc⌋ : ℚ) from rfl,
      hfl]
    push_cast
    ring
  case isFalse h =>
    rw [heq]
    exact (Int.fract_eq_self.mpr ⟨by linarith, by linarith⟩).symm

theorem processN_phase_fract (sineF : ℚ → ℚ) (noiseSeq : ℕ → ℚ) (inc : ℚ)
    (h0 : 0 ≤ inc) (h1 : inc < 1) :
    ∀ (n : ℕ) (x : ℚ) (s : MixingOscillator.State),
      s.phaseIncrement = inc → s.phase = Int.fract x →
      (MixingOscillator.processN sineF noiseSeq n s).phase = Int.fract (x + n * inc) ∧
      (MixingOscillator.processN sineF noiseSeq n s).phaseIncrement = inc := by
  intro n
  induction n with
  | zero =>
      intro x s hinc hph
      refine ⟨?_, hinc⟩
      show s.phase = Int.fract (x + (0 : ℕ) * inc)
      rw [hph]
      norm_num
  | succ k ih =>
      intro x s hinc hph
      have hsnd := MixingOscillator.process_snd sineF (noiseSeq k) s
      have hphase2 : (MixingOscillator.process sineF (noiseSeq k) s).2.phase
          = Int.fract (x + inc) := by
        rw [hsnd]
        show MixingOscillator.advancePhase s.phase s.phaseIncrement = _
        rw [hph, hinc]
        exact advancePhase_fract x inc h0 h1
      have hinc2 : (MixingOscillator.process sineF (noiseSeq k) s).2.phaseIncrement
          = inc := by
        rw [hsnd]
        exact hinc
      have hrec := ih (x + inc) (MixingOscillator.process sineF (noiseSeq k) s).2
        hinc2 hphase2
      refine ⟨?_, hrec.2⟩
      have harg : x + (k + 1 : ℕ) * inc = (x + inc) + k * inc := by
        push_cast
        ring
      rw [show MixingOscillator.processN sineF noiseSeq (k + 1) s
            = MixingOscillator.processN sineF noiseSeq k
                (MixingOscillator.process sineF (noiseSeq k) s).2 from rfl,
          harg]
      exact hrec.1

/-- C2 counterexample: `setFrequency` accepts any frequency, and for a
frequency of 384000 Hz (phase increment 2 at the 192 kHz sample rate) the
single conditional subtraction in `advancePhase` leaves the phase at 1 after
one `process()` call from a synced start, violating the claimed [0,1)
invariant; the claimed value `(frequency/sampleRate × 1) mod 1 = 0` is missed
as well. -/
theorem mixosc_c2_counterexample :
    (MixingOscillator.processN (fun _ => 0) (fun _ => 0) 1
        (MixingOscillator.sync
          (MixingOscillator.setFrequency 384000 MixingOscillator.initState))).phase = 1 ∧
    ¬ ((MixingOscillator.processN (fun _ => 0) (fun _ => 0) 1
        (MixingOscillator.sync
          (MixingOscillator.setFrequency 384000 MixingOscillator.initState))).phase < 1) ∧
    Int.fract ((1 : ℕ) * ((384000 : ℚ) / 192000)) = 0 := by
  have hval : (MixingOscillator.processN (fun _ => 0) (fun _ => 0) 1
      (MixingOscillator.sync
        (MixingOscillator.setFrequency 384000 MixingOscillator.initState))).phase = 1 := by
    show (MixingOscillator.process (fun _ => 0) 0
        (MixingOscillator.sync
          (MixingOscillator.setFrequency 384000 MixingOscillator.initState))).2.phase = 1
    rw [MixingOscillator.process_snd]
    show MixingOscillator.advancePhase 0 ((384000 : ℚ) / 192000) = 1
    unfold MixingOscillator.advancePhase
    norm_num
  refine ⟨hval, by rw [hval]; norm_num, ?_⟩
  have : ((1 : ℕ) : ℚ) * ((384000 : ℚ) / 192000) = ((2 : ℤ) : ℚ) := by push_cast; norm_num
  rw [this, Int.fract_intCast]

/-- C2 amended: restricted to frequencies in [0, sampleRate) — so that the
per sample increment `frequency/sampleRate` produced by `setFrequency` lies
in [0,1) — the phase accumulator is in [0,1) after every advance, and after
N `process()` calls from a synced (phase = 0) start the phase equals
`(frequency/sampleRate × N) mod 1` exactly (the rational embedding computes
exactly, so the floating point tolerance is met with slack 0). -/
theorem mixosc_c2_amended (sineF : ℚ → ℚ) (noiseSeq : ℕ → ℚ) (freq : ℚ)
    (s0 : MixingOscillator.State) (hf0 : 0 ≤ freq) (hf1 : freq < 192000) (n : ℕ) :
    ((MixingOscillator.processN sineF noiseSeq n
        (MixingOscillator.sync (MixingOscillator.setFrequency freq s0))).phase
      = Int.fract (n * (freq / 192000)) ∧
     0 ≤ (MixingOscillator.processN sineF noiseSeq n
        (MixingOscillator.sync (MixingOscillator.setFrequency freq s0))).phase ∧
     (MixingOscillator.processN sineF noiseSeq n
        (MixingOscillator.sync (MixingOscillator.setFrequency freq s0))).phase < 1) ∧
    (∀ p i : ℚ, 0 ≤ p → p < 1 → 0 ≤ i → i < 1 →
      0 ≤ MixingOscillator.advancePhase p i ∧ MixingOscillator.advancePhase p i < 1) := by
  have hi0 : 0 ≤ freq / 192000 := by positivity
  have hi1 : freq / 192000 < 1 := by
    rw [div_lt_one (by norm_num)]
    exact hf1
  have hmain := processN_phase_fract sineF noiseSeq (freq / 192000) hi0 hi1 n 0
    (MixingOscillator.sync (MixingOscillator.setFrequency freq s0)) rfl
    (by rw [Int.fract_zero]; rfl)
  refine ⟨⟨?_, ?_, ?_⟩, ?_⟩
  · rw [hmain.1]
    norm_num
  · rw [hmain.1]
    exact Int.fract_nonneg _
  · rw [hmain.1]
    exact Int.fract_lt_one _
  · intro p i hp0 hp1 hi0 hi1
    unfold MixingOscillator.advancePhase
    split <;> constructor <;> linarith

/-- Witness for the amended C2 theorem: 48 kHz at the 192 kHz rate, three
process calls, phase lands on `Int.fract (3 × 1/4) = 3/4`. -/
theorem mixosc_c2_witness :
    (MixingOscillator.processN (fun _ => 0) (fun _ => 0) 3
        (MixingOscillator.sync
          (MixingOscillator.setFrequency 48000 MixingOscillator.initState))).phase
      = Int.fract ((3 : ℕ) * ((48000 : ℚ) / 192000)) :=
  ((mixosc_c2_amended (fun _ => 0) (fun _ => 0) 48000 MixingOscillator.initState
      (by norm_num) (by norm_num) 3).1).1

/-- Filter modes (types.hpp). -/
inductive FilterMode
  | lowpass
  | highpass
  | bandpass
  | notch
  deriving DecidableEq, Repr

namespace StateVariableFilter

/-- State of a `StateVariableFilter` (filter.hpp lines 27 to 180), generic in
the number field so the coefficient formula can be stated over ℝ while the
engine level proofs run over ℚ. -/
structure State (K : Type) where
  cutoff : K
  resonance : K
  drive : K
  mode : FilterMode
  lowpass : K
  highpass : K
  bandpass : K
  notch : K
  f : K
  q : K
  deriving DecidableEq, Repr

variable {K : Type} [LinearOrderedField K]

/-- `StateVariableFilter::updateCoefficients`.  `sinF c` stands for the double
value `std::sin(PI * c / SAMPLE_RATE)`, so `f = 2 * sinF cutoff` mirrors
`f_ = 2.0 * std::sin(PI * cutoff_ / SAMPLE_RATE)`. -/
def updateCoefficients (sinF : K → K) (s : State K) : State K :=
  { s with f := 2 * sinF s.cutoff, q := 2 - 2 * s.resonance }

/-- `StateVariableFilter::setCutoff`: clamp to [20, NYQUIST * 0.9] then update
coefficients. -/
def setCutoff (sinF : K → K) (freq : K) (s : State K) : State K :=
  updateCoefficients sinF { s with cutoff := clampv freq 20 ((192000 / 2) * (9/10)) }

/-- `StateVariableFilter::setResonance`: clamp to [0, 0.99] then update
coefficients. -/
def setResonance (sinF : K → K) (res : K) (s : State K) : State K :=
  updateCoefficients sinF { s with resonance := clampv res 0 (99/100) }

/-- `StateVariableFilter::setDrive`: clamp to [0, 1]; no coefficient update. -/
def setDrive (drv : K) (s : State K) : State K :=
  { s with drive := clampv drv 0 1 }

/-- `StateVariableFilter::setMode`. -/
def setMode (m : FilterMode) (s : State K) : State K := { s with mode := m }

/-- `StateVariableFilter::softClip`: the rational soft clip
`x (27 + x^2) / (27 + 9 x^2)`, hard limited to ±1 beyond ±3. -/
def softClip (x : K) : K :=
  if 3 < x then 1
  else if x < -3 then -1
  else x * (27 + x * x) / (27 + 9 * (x * x))

/-- One iteration of the integration loop body inside
`StateVariableFilter::process`:
`lowpass += f*bandpass; highpass = input - lowpass - q*bandpass;
bandpass += f*highpass; notch = highpass + lowpass`. -/
def integrate (input : K) (s : State K) : State K :=
  let lp := s.lowpass + s.f * s.bandpass
  let hp := input - lp - s.q * s.bandpass
  let bp := s.bandpass + s.f * hp
  { s with lowpass := lp, highpass := hp, bandpass := bp, notch := hp + lp }

/-- `StateVariableFilter::process`: optional pre drive soft clip, the
integration loop run with the loop counter bound 2 from the source, output
selection by mode, optional post soft clip when drive exceeds 0.5. -/
def process (input : K) (s : State K) : K × State K :=
  let inp := if 0 < s.drive then softClip (input * (1 + s.drive * 3)) else input
  let s2 := (fun t => integrate inp t)^[2] s
  let out :=
    match s2.mode with
    | FilterMode.lowpass => s2.lowpass
    | FilterMode.highpass => s2.highpass
    | FilterMode.bandpass => s2.bandpass
    | FilterMode.notch => s2.notch
  let out2 := if 1/2 < s.drive then softClip out else out
  (out2, s2)

/-- `StateVariableFilter::reset`: zero the four integrator outputs. -/
def reset (s : State K) : State K :=
  { s with lowpass := 0, highpass := 0, bandpass := 0, notch := 0 }

end StateVariableFilter

/-- The real sine based coefficient map of filter.hpp:
`sinReal c = sin(PI * c / SAMPLE_RATE)`. -/
noncomputable def sinReal : ℝ → ℝ := fun c => Real.sin (Real.pi * c / 192000)

/-- C6: for the state variable filter, `setCutoff` clamps its argument to
[20 Hz, 0.9 × Nyquist] and `setResonance` clamps to [0, 0.99]; the derived
coefficients are `f = 2 sin(π cutoff / sampleRate)` and
`q = 2 − 2 resonance`; and each `process()` call runs the integration update
exactly twice on the (drive conditioned) input, every other part of the call
being read only on the integrator state. -/
theorem svf_c6_coefficients_and_double_update :
    (∀ (freq : ℝ) (s : StateVariableFilter.State ℝ),
      (StateVariableFilter.setCutoff sinReal freq s).cutoff
          = max 20 (min ((9/10) * (192000 / 2)) freq) ∧
      (StateVariableFilter.setCutoff sinReal freq s).f
          = 2 * Real.sin (Real.pi * max 20 (min ((9/10) * (192000 / 2)) freq) / 192000)) ∧
    (∀ (res : ℝ) (s : StateVariableFilter.State ℝ),
      (StateVariableFilter.setResonance sinReal res s).resonance
          = max 0 (min (99/100) res) ∧
      (StateVariableFilter.setResonance sinReal res s).q
          = 2 - 2 * max 0 (min (99/100) res)) ∧
    (∀ (input : ℝ) (s : StateVariableFilter.State ℝ),
      (StateVariableFilter.process input s).2
        = StateVariableFilter.integrate
            (if 0 < s.drive then
              StateVariableFilter.softClip (input * (1 + s.drive * 3)) else input)
            (StateVariableFilter.integrate
              (if 0 < s.drive then
                StateVariableFilter.softClip (input * (1 + s.drive * 3)) else input)
              s)) := by
  have hbound : ((192000 : ℝ) / 2) * (9/10) = (9/10) * (192000 / 2) := by ring
  refine ⟨?_, ?_, ?_⟩
  · intro freq s
    constructor
    · show clampv freq 20 ((192000 / 2) * (9/10)) = _
      rw [clampv_eq_max_min freq 20 _ (by norm_num), hbound]
    · show 2 * sinReal (clampv freq 20 ((192000 / 2) * (9/10))) = _
      rw [clampv_eq_max_min freq 20 _ (by norm_num), hbound]
      rfl
  · intro res s
    constructor
    · show clampv res 0 (99/100) = _
      rw [clampv_eq_max_min res 0 _ (by norm_num)]
    · show 2 - 2 * clampv res 0 (99/100) = _
      rw [clampv_eq_max_min res 0 _ (by norm_num)]
  · intro input s
    show (fun t => StateVariableFilter.integrate _ t)^[2] s = _
    rw [Function.iterate_succ_apply, Function.iterate_succ_apply,
      Function.iterate_zero_apply]

/-- One synthesizer voice (voice.hpp).  The two oscillators are
MixingOscillator states; the MultiEngine member is represented by the only
field of it that the claims touch (its phase increment, set on noteOn); the
filter is the ℚ instance of the SVF state. -/
structure Voice where
  active : Bool
  note : ℤ
  velocity : ℚ
  osc1 : MixingOscillator.State
  osc2 : MixingOscillator.State
  multiPhaseIncrement : ℚ
  filter : StateVariableFilter.State ℚ
  ampEnv : ADSR.State
  filterEnv : ADSR.State
  baseCutoff : ℚ
  filterEnvDepth : ℚ
  oscMix : ℚ
  deriving DecidableEq, Repr

namespace Voice

/-- `Voice::isActive`: the local flag AND the amplitude envelope. -/
def isActive (v : Voice) : Bool := v.active && ADSR.isActive v.ampEnv

/-- `Voice::noteOn`.  `midiFreq k` stands for the double
`midiToFrequency(k) = 440 * 2^((k - 69)/12)`, kept abstract; the detune
factor 1.002 on oscillator 2 is exact. -/
def noteOn (midiFreq : ℤ → ℚ) (note : ℤ) (velocity : ℚ) (v : Voice) : Voice :=
  let baseFreq := midiFreq note
  { v with
      note := note
      velocity := velocity
      active := true
      osc1 := MixingOscillator.setFrequency baseFreq v.osc1
      osc2 := MixingOscillator.setFrequency (baseFreq * (1002/1000)) v.osc2
      multiPhaseIncrement := MixingOscillator.frequencyToPhaseIncrement baseFreq
      ampEnv := ADSR.noteOn v.ampEnv
      filterEnv := ADSR.noteOn v.filterEnv
      filter := StateVariableFilter.reset v.filter }

/-- `Voice::noteOff`: forward release to both envelopes only. -/
def noteOff (v : Voice) : Voice :=
  { v with ampEnv := ADSR.noteOff v.ampEnv, filterEnv := ADSR.noteOff v.filterEnv }

/-- `Voice::kill`: clear the flag and hard reset both envelopes. -/
def kill (v : Voice) : Voice :=
  { v with
      active := false
      ampEnv := ADSR.reset v.ampEnv
      filterEnv := ADSR.reset v.filterEnv }

/-- `Voice::setWaveMix(const WaveMix &)`: assign the mix to both oscillators
through the unclamped overload. -/
def setWaveMix (m : WaveMix) (v : Voice) : Voice :=
  { v with
      osc1 := MixingOscillator.setMixW m v.osc1
      osc2 := MixingOscillator.setMixW m v.osc2 }

/-- `Voice::setFilterCutoff`: stores the base cutoff only. -/
def setFilterCutoff (freq : ℚ) (v : Voice) : Voice := { v with baseCutoff := freq }

/-- `Voice::setFilterResonance`. -/
def setFilterResonance (sinF : ℚ → ℚ) (res : ℚ) (v : Voice) : Voice :=
  { v with filter := StateVariableFilter.setResonance sinF res v.filter }

/-- `Voice::setFilterDrive`. -/
def setFilterDrive (drv : ℚ) (v : Voice) : Voice :=
  { v with filter := StateVariableFilter.setDrive drv v.filter }

/-- `Voice::setAmpADSR`. -/
def setAmpADSR (coefOf : ℚ → ℚ) (a d s r : ℚ) (v : Voice) : Voice :=
  let env := ADSR.setRelease coefOf r
    (ADSR.setSustain s (ADSR.setDecay coefOf d (ADSR.setAttack coefOf a v.ampEnv)))
  { v with ampEnv := env }

/-- `Voice::setFilterADSR`. -/
def setFilterADSR (coefOf : ℚ → ℚ) (a d s r : ℚ) (v : Voice) : Voice :=
  let env := ADSR.setRelease coefOf r
    (ADSR.setSustain s (ADSR.setDecay coefOf d (ADSR.setAttack coefOf a v.filterEnv)))
  { v with filterEnv := env }

/-- `Voice::setFilterEnvDepth`. -/
def setFilterEnvDepth (depth : ℚ) (v : Voice) : Voice :=
  { v with filterEnvDepth := depth }

end Voice

/-- One preset (struct SynthPreset, presets.hpp), default member values
included. -/
structure SynthPreset where
  name : String
  waveMix : WaveMix := { sine := 0, triangle := 0, sawtooth := 1, square := 0, noise := 0 }
  filterCutoff : ℚ := 2000
  filterResonance : ℚ := 3/10
  filterDrive : ℚ := 0
  ampAttack : ℚ := 1/100
  ampDecay : ℚ := 1/10
  ampSustain : ℚ := 7/10
  ampRelease : ℚ := 3/10
  filterAttack : ℚ := 1/100
  filterDecay : ℚ := 1/10
  filterSustain : ℚ := 3/10
  filterRelease : ℚ := 3/10
  filterEnvDepth : ℚ := 1/2
  masterVolume : ℚ := 4/5
  deriving DecidableEq, Repr

namespace PresetBank

def initPreset : SynthPreset :=
  { name := "Init"
    waveMix := { sine := 1, triangle := 0, sawtooth := 0, square := 0, noise := 0 }
    filterCutoff := 2000
    filterResonance := 3/10
    ampAttack := 1/100
    ampDecay := 1/10
    ampSustain := 7/10
    ampRelease := 3/10
    filterEnvDepth := 3/10 }

def bassPreset : SynthPreset :=
  { name := "Bass"
    waveMix := { sine := 3/10, triangle := 0, sawtooth := 7/10, square := 0, noise := 0 }
    filterCutoff := 400
    filterResonance := 1/2
    filterDrive := 1/5
    ampAttack := 1/100
    ampDecay := 3/10
    ampSustain := 4/5
    ampRelease := 1/5
    filterAttack := 1/100
    filterDecay := 1/5
    filterSustain := 1/5
    filterEnvDepth := 3/5 }

def leadPreset : SynthPreset :=
  { name := "Lead"
    waveMix := { sine := 0, triangle := 0, sawtooth := 3/5, square := 2/5, noise := 0 }
    filterCutoff := 3000
    filterResonance := 2/5
    ampAttack := 1/100
    ampDecay := 1/10
    ampSustain := 3/5
    ampRelease := 2/5
    filterAttack := 1/100
    filterDecay := 3/20
    filterSustain := 2/5
    filterEnvDepth := 1/2 }

def padPreset : SynthPreset :=
  { name := "Pad"
    waveMix := { sine := 1/2, triangle := 1/2, sawtooth := 0, square := 0, noise := 0 }
    filterCutoff := 1500
    filterResonance := 1/5
    ampAttack := 1/2
    ampDecay := 3/10
    ampSustain := 4/5
    ampRelease := 1
    filterAttack := 2/5
    filterDecay := 3/10
    filterSustain := 1/2
    filterEnvDepth := 3/10 }

def kickPreset : SynthPreset :=
  { name := "Kick"
    waveMix := { sine := 1, triangle := 0, sawtooth := 0, square := 0, noise := 0 }
    filterCutoff := 200
    filterResonance := 4/5
    filterDrive := 3/10
    ampAttack := 1/1000
    ampDecay := 1/5
    ampSustain := 0
    ampRelease := 1/10
    filterAttack := 1/1000
    filterDecay := 3/20
    filterSustain := 0
    filterEnvDepth := 9/10
    masterVolume := 1 }

def snarePreset : SynthPreset :=
  { name := "Snare"
    waveMix := { sine := 3/10, triangle := 1/5, sawtooth := 1/5, square := 0, noise := 3/10 }
    filterCutoff := 5000
    filterResonance := 3/10
    ampAttack := 1/1000
    ampDecay := 3/20
    ampSustain := 1/10
    ampRelease := 3/20
    filterAttack := 1/1000
    filterDecay := 1/10
    filterSustain := 1/5
    filterEnvDepth := 1/2
    masterVolume := 9/10 }

def hihatPreset : SynthPreset :=
  { name := "Hi-Hat"
    waveMix := { sine := 0, triangle := 0, sawtooth := 3/10, square := 3/10, noise := 2/5 }
    filterCutoff := 10000
    filterResonance := 1/5
    ampAttack := 1/1000
    ampDecay := 1/20
    ampSustain := 0
    ampRelease := 1/20
    filterEnvDepth := 1/10
    masterVolume := 7/10 }

def pluckPreset : SynthPreset :=
  { name := "Pluck"
    waveMix := { sine := 0, triangle := 3/10, sawtooth := 7/10, square := 0, noise := 0 }
    filterCutoff := 5000
    filterResonance := 3/10
    ampAttack := 1/1000
    ampDecay := 3/10
    ampSustain := 0
    ampRelease := 1/5
    filterAttack := 1/1000
    filterDecay := 1/5
    filterSustain := 1/10
    filterEnvDepth := 7/10 }

def stringsPreset : SynthPreset :=
  { name := "Strings"
    waveMix := { sine := 0, triangle := 0, sawtooth := 1, square := 0, noise := 0 }
    filterCutoff := 2500
    filterResonance := 1/5
    ampAttack := 3/10
    ampDecay := 1/5
    ampSustain := 7/10
    ampRelease := 1/2
    filterAttack := 1/5
    filterDecay := 1/5
    filterSustain := 1/2
    filterEnvDepth := 1/5 }

def fmBellPreset : SynthPreset :=
  { name := "FM Bell"
    waveMix := { sine := 1, triangle := 0, sawtooth := 0, square := 0, noise := 0 }
    filterCutoff := 8000
    filterResonance := 1/10
    ampAttack := 1/1000
    ampDecay := 3/2
    ampSustain := 0
    ampRelease := 1
    filterEnvDepth := 1/10 }

/-- `PresetBank::NUM_PRESETS`. -/
def NUM_PRESETS : ℤ := 10

/-- `PresetBank::getPreset`: the index switch (out of range indices fall to
the init preset, exactly as the default label does). -/
def getPreset (index : ℤ) : SynthPreset :=
  if index = 0 then initPreset
  else if index = 1 then bassPreset
  else if index = 2 then leadPreset
  else if index = 3 then padPreset
  else if index = 4 then kickPreset
  else if index = 5 then snarePreset
  else if index = 6 then hihatPreset
  else if index = 7 then pluckPreset
  else if index = 8 then stringsPreset
  else if index = 9 then fmBellPreset
  else initPreset

end PresetBank

/-- The polyphonic engine state (synth_engine.hpp): four voices, the
shared LFO depth and master volume, the current preset index.  The shared
LFO object is not referenced by any claim and is omitted. -/
structure SynthEngine where
  voices : Fin 4 → Voice
  lfoDepth : ℚ
  masterVolume : ℚ
  currentPreset : ℤ

namespace SynthEngine

/-- The voice slot `SynthEngine::noteOn` picks: the first (lowest index)
voice whose `isActive()` is false, and slot 0 when every voice is active
(the `if (!target) target = &voices_[0]` steal). -/
def targetIndex (e : SynthEngine) : Fin 4 :=
  if (e.voices 0).isActive = false then 0
  else if (e.voices 1).isActive = false then 1
  else if (e.voices 2).isActive = false then 2
  else if (e.voices 3).isActive = false then 3
  else 0

/-- `SynthEngine::noteOn`. -/
def noteOn (midiFreq : ℤ → ℚ) (note : ℤ) (velocity : ℚ) (e : SynthEngine) :
    SynthEngine :=
  let t := targetIndex e
  let vs := Function.update e.voices t (Voice.noteOn midiFreq note velocity (e.voices t))
  { e with voices := vs }

/-- `SynthEngine::noteOff`: every active voice holding the note is released. -/
def noteOff (note : ℤ) (e : SynthEngine) : SynthEngine :=
  { e with voices := fun i =>
      if (e.voices i).isActive = true ∧ (e.voices i).note = note then
        Voice.noteOff (e.voices i)
      else e.voices i }

/-- `SynthEngine::allNotesOff`: noteOff on every voice unconditionally. -/
def allNotesOff (e : SynthEngine) : SynthEngine :=
  { e with voices := fun i => Voice.noteOff (e.voices i) }

/-- `SynthEngine::applyPreset`: the setter sequence from synth_engine.hpp
lines 90 to 103, applied to every voice, then the master volume. -/
def applyPreset (coefOf sinF : ℚ → ℚ) (p : SynthPreset) (e : SynthEngine) :
    SynthEngine :=
  { e with
      voices := fun i =>
        Voice.setFilterEnvDepth p.filterEnvDepth
          (Voice.setFilterADSR coefOf p.filterAttack p.filterDecay p.filterSustain
            p.filterRelease
            (Voice.setAmpADSR coefOf p.ampAttack p.ampDecay p.ampSustain p.ampRelease
              (Voice.setFilterDrive p.filterDrive
                (Voice.setFilterResonance sinF p.filterResonance
                  (Voice.setFilterCutoff p.filterCutoff
                    (Voice.setWaveMix p.waveMix (e.voices i)))))))
      masterVolume := p.masterVolume }

/-- `SynthEngine::loadPreset`: out of range indices return before touching
anything; in range indices record the index and bulk apply the preset. -/
def loadPreset (coefOf sinF : ℚ → ℚ) (index : ℤ) (e : SynthEngine) : SynthEngine :=
  if index < 0 ∨ PresetBank.NUM_PRESETS ≤ index then e
  else applyPreset coefOf sinF (PresetBank.getPreset index)
    { e with currentPreset := index }

end SynthEngine

/-- The ADSR state built by the `ADSR()` constructor, coefficient map
abstract (envelope.hpp lines 30 to 34). -/
def defaultADSR (coefOf : ℚ → ℚ) : ADSR.State :=
  ADSR.updateCoefficients coefOf
    { stage := ADSR.Stage.idle
      output := 0
      releaseLevel := 0
      attackTime := 1/100
      decayTime := 1/10
      sustainLevel := 7/10
      releaseTime := 3/10
      attackCoef := 0
      decayCoef := 0
      releaseCoef := 0 }

/-- The SVF state built by the `StateVariableFilter()` constructor. -/
def defaultSVF (sinF : ℚ → ℚ) : StateVariableFilter.State ℚ :=
  StateVariableFilter.updateCoefficients sinF
    { cutoff := 1000
      resonance := 0
      drive := 0
      mode := FilterMode.lowpass
      lowpass := 0
      highpass := 0
      bandpass := 0
      notch := 0
      f := 0
      q := 0 }

/-- The voice built by the `Voice()` constructor: inactive, default
oscillators re-mixed to pure saw, default filter and envelopes. -/
def defaultVoice (coefOf sinF : ℚ → ℚ) : Voice :=
  { active := false
    note := 0
    velocity := 0
    osc1 := MixingOscillator.setMix 0 0 1 0 0 MixingOscillator.initState
    osc2 := MixingOscillator.setMix 0 0 1 0 0 MixingOscillator.initState
    multiPhaseIncrement := 0
    filter := defaultSVF sinF
    ampEnv := defaultADSR coefOf
    filterEnv := defaultADSR coefOf
    baseCutoff := 2000
    filterEnvDepth := 1/2
    oscMix := 1/2 }

/-- A fully idle engine used as the concrete witness state. -/
def idleEngine : SynthEngine :=
  { voices := fun _ => defaultVoice (fun _ => 1/2) (fun _ => 0)
    lfoDepth := 1/5
    masterVolume := 4/5
    currentPreset := 0 }

theorem voice_noteOn_isActive (mf : ℤ → ℚ) (n : ℤ) (vel : ℚ) (v : Voice) :
    (Voice.noteOn mf n vel v).isActive = true := by
  simp [Voice.noteOn, Voice.isActive, ADSR.noteOn, ADSR.isActive]

theorem voice_noteOn_note (mf : ℤ → ℚ) (n : ℤ) (vel : ℚ) (v : Voice) :
    (Voice.noteOn mf n vel v).note = n := rfl

theorem noteOn_step (mf : ℤ → ℚ) (n : ℤ) (vel : ℚ) (e : SynthEngine) (k : Fin 4)
    (hk : SynthEngine.targetIndex e = k) :
    (SynthEngine.noteOn mf n vel e).voices k = Voice.noteOn mf n vel (e.voices k) ∧
    ∀ j, j ≠ k → (SynthEngine.noteOn mf n vel e).voices j = e.voices j := by
  constructor
  · show Function.update e.voices (SynthEngine.targetIndex e)
        (Voice.noteOn mf n vel (e.voices (SynthEngine.targetIndex e))) k = _
    rw [hk]
    exact Function.update_same k _ e.voices
  · intro j hj
    show Function.update e.voices (SynthEngine.targetIndex e)
        (Voice.noteOn mf n vel (e.voices (SynthEngine.targetIndex e))) j = _
    rw [hk]
    exact Function.update_noteq hj _ e.voices

/-- C3: `noteOn` writes the new note into the voice slot `targetIndex` and
leaves every other slot alone; `targetIndex` is the first slot whose
`isActive()` is false and slot 0 when every slot is active; and starting from
four idle voices, four sequential `noteOn` calls land in the four distinct
slots 0,1,2,3 in order (all four then active, holding the four notes), and a
fifth `noteOn` steals slot 0, overwriting its note with the new one. -/
theorem engine_c3_voice_allocation :
    (∀ (mf : ℤ → ℚ) (n : ℤ) (vel : ℚ) (e : SynthEngine),
      (SynthEngine.noteOn mf n vel e).voices (SynthEngine.targetIndex e)
          = Voice.noteOn mf n vel (e.voices (SynthEngine.targetIndex e)) ∧
      ∀ j, j ≠ SynthEngine.targetIndex e →
          (SynthEngine.noteOn mf n vel e).voices j = e.voices j) ∧
    (∀ e : SynthEngine,
      ((e.voices 0).isActive = false → SynthEngine.targetIndex e = 0) ∧
      ((e.voices 0).isActive = true → (e.voices 1).isActive = false →
          SynthEngine.targetIndex e = 1) ∧
      ((e.voices 0).isActive = true → (e.voices 1).isActive = true →
          (e.voices 2).isActive = false → SynthEngine.targetIndex e = 2) ∧
      ((e.voices 0).isActive = true → (e.voices 1).isActive = true →
          (e.voices 2).isActive = true → (e.voices 3).isActive = false →
          SynthEngine.targetIndex e = 3) ∧
      ((∀ i, (e.voices i).isActive = true) → SynthEngine.targetIndex e = 0)) ∧
    (∀ (mf : ℤ → ℚ) (e0 : SynthEngine), (∀ i, (e0.voices i).isActive = false) →
      ∀ (n1 n2 n3 n4 n5 : ℤ) (v1 v2 v3 v4 v5 : ℚ),
      ((SynthEngine.noteOn mf n4 v4 (SynthEngine.noteOn mf n3 v3 (SynthEngine.noteOn mf n2
          v2 (SynthEngine.noteOn mf n1 v1 e0)))).voices 0).isActive = true ∧
      ((SynthEngine.noteOn mf n4 v4 (SynthEngine.noteOn mf n3 v3 (SynthEngine.noteOn mf n2
          v2 (SynthEngine.noteOn mf n1 v1 e0)))).voices 1).isActive = true ∧
      ((SynthEngine.noteOn mf n4 v4 (SynthEngine.noteOn mf n3 v3 (SynthEngine.noteOn mf n2
          v2 (SynthEngine.noteOn mf n1 v1 e0)))).voices 2).isActive = true ∧
      ((SynthEngine.noteOn mf n4 v4 (SynthEngine.noteOn mf n3 v3 (SynthEngine.noteOn mf n2
          v2 (SynthEngine.noteOn mf n1 v1 e0)))).voices 3).isActive = true ∧
      ((SynthEngine.noteOn mf n4 v4 (SynthEngine.noteOn mf n3 v3 (SynthEngine.noteOn mf n2
          v2 (SynthEngine.noteOn mf n1 v1 e0)))).voices 0).note = n1 ∧
      ((SynthEngine.noteOn mf n4 v4 (SynthEngine.noteOn mf n3 v3 (SynthEngine.noteOn mf n2
          v2 (SynthEngine.noteOn mf n1 v1 e0)))).voices 1).note = n2 ∧
      ((SynthEngine.noteOn mf n4 v4 (SynthEngine.noteOn mf n3 v3 (SynthEngine.noteOn mf n2
          v2 (SynthEngine.noteOn mf n1 v1 e0)))).voices 2).note = n3 ∧
      ((SynthEngine.noteOn mf n4 v4 (SynthEngine.noteOn mf n3 v3 (SynthEngine.noteOn mf n2
          v2 (SynthEngine.noteOn mf n1 v1 e0)))).voices 3).note = n4 ∧
      ((SynthEngine.noteOn mf n5 v5 (SynthEngine.noteOn mf n4 v4 (SynthEngine.noteOn mf n3
          v3 (SynthEngine.noteOn mf n2 v2 (SynthEngine.noteOn mf n1 v1 e0))))).voices
          0).note = n5 ∧
      ((SynthEngine.noteOn mf n5 v5 (SynthEngine.noteOn mf n4 v4 (SynthEngine.noteOn mf n3
          v3 (SynthEngine.noteOn mf n2 v2 (SynthEngine.noteOn mf n1 v1 e0))))).voices
          1).note = n2 ∧
      ((SynthEngine.noteOn mf n5 v5 (SynthEngine.noteOn mf n4 v4 (SynthEngine.noteOn mf n3
          v3 (SynthEngine.noteOn mf n2 v2 (SynthEngine.noteOn mf n1 v1 e0))))).voices
          2).note = n3 ∧
      ((SynthEngine.noteOn mf n5 v5 (SynthEngine.noteOn mf n4 v4 (SynthEngine.noteOn mf n3
          v3 (SynthEngine.noteOn mf n2 v2 (SynthEngine.noteOn mf n1 v1 e0))))).voices
          3).note = n4) := by
  refine ⟨?_, ?_, ?_⟩
  · intro mf n vel e
    exact noteOn_step mf n vel e (SynthEngine.targetIndex e) rfl
  · intro e
    refine ⟨?_, ?_, ?_, ?_, ?_⟩
    · intro h0
      simp [SynthEngine.targetIndex, h0]
    · intro h0 h1
      simp [SynthEngine.targetIndex, h0, h1]
    · intro h0 h1 h2
      simp [SynthEngine.targetIndex, h0, h1, h2]
    · intro h0 h1 h2 h3
      simp [SynthEngine.targetIndex, h0, h1, h2, h3]
    · intro hall
      simp [SynthEngine.targetIndex, hall 0, hall 1, hall 2, hall 3]
  · intro mf e0 h n1 n2 n3 n4 n5 v1 v2 v3 v4 v5
    set E1 := SynthEngine.noteOn mf n1 v1 e0 with hE1
    set E2 := SynthEngine.noteOn mf n2 v2 E1 with hE2
    set E3 := SynthEngine.noteOn mf n3 v3 E2 with hE3
    set E4 := SynthEngine.noteOn mf n4 v4 E3 with hE4
    set E5 := SynthEngine.noteOn mf n5 v5 E4 with hE5
    have ht0 : SynthEngine.targetIndex e0 = 0 := by
      simp [SynthEngine.targetIndex, h 0]
    have s1 := noteOn_step mf n1 v1 e0 0 ht0
    rw [← hE1] at s1
    have a10 : (E1.voices 0).isActive = true := by
      rw [s1.1]; exact voice_noteOn_isActive mf n1 v1 _
    have a11 : (E1.voices 1).isActive = false := by
      rw [s1.2 1 (by decide)]; exact h 1
    have a12 : (E1.voices 2).isActive = false := by
      rw [s1.2 2 (by decide)]; exact h 2
    have a13 : (E1.voices 3).isActive = false := by
      rw [s1.2 3 (by decide)]; exact h 3
    have ht1 : SynthEngine.targetIndex E1 = 1 := by
      simp [SynthEngine.targetIndex, a10, a11]
    have s2 := noteOn_step mf n2 v2 E1 1 ht1
    rw [← hE2] at s2
    have b20 : E2.voices 0 = Voice.noteOn mf n1 v1 (e0.voices 0) := by
      rw [s2.2 0 (by decide)]; exact s1.1
    have a20 : (E2.voices 0).isActive = true := by
      rw [b20]; exact voice_noteOn_isActive mf n1 v1 _
    have a21 : (E2.voices 1).isActive = true := by
      rw [s2.1]; exact voice_noteOn_isActive mf n2 v2 _
    have a22 : (E2.voices 2).isActive = false := by
      rw [s2.2 2 (by decide)]; exact a12
    have a23 : (E2.voices 3).isActive = false := by
      rw [s2.2 3 (by decide)]; exact a13
    have ht2 : SynthEngine.targetIndex E2 = 2 := by
      simp [SynthEngine.targetIndex, a20, a21, a22]
    have s3 := noteOn_step mf n3 v3 E2 2 ht2
    rw [← hE3] at s3
    have b30 : E3.voices 0 = Voice.noteOn mf n1 v1 (e0.voices 0) := by
      rw [s3.2 0 (by decide)]; exact b20
    have b31 : E3.voices 1 = Voice.noteOn mf n2 v2 (E1.voices 1) := by
      rw [s3.2 1 (by decide)]; exact s2.1
    have b32 : E3.voices 2 = Voice.noteOn mf n3 v3 (E2.voices 2) := s3.1
    have a30 : (E3.voices 0).isActive = true := by
      rw [b30]; exact voice_noteOn_isActive mf n1 v1 _
    have a31 : (E3.voices 1).isActive = true := by
      rw [b31]; exact voice_noteOn_isActive mf n2 v2 _
    have a32 : (E3.voices 2).isActive = true := by
      rw [b32]; exact voice_noteOn_isActive mf n3 v3 _
    have a33 : (E3.voices 3).isActive = false := by
      rw [s3.2 3 (by decide)]; exact a23
    have ht3 : SynthEngine.targetIndex E3 = 3 := by
      simp [SynthEngine.targetIndex, a30, a31, a32, a33]
    have s4 := noteOn_step mf n4 v4 E3 3 ht3
    rw [← hE4] at s4
    have b40 : E4.voices 0 = Voice.noteOn mf n1 v1 (e0.voices 0) := by
      rw [s4.2 0 (by decide)]; exact b30
    have b41 : E4.voices 1 = Voice.noteOn mf n2 v2 (E1.voices 1) := by
      rw [s4.2 1 (by decide)]; exact b31
    have b42 : E4.voices 2 = Voice.noteOn mf n3 v3 (E2.voices 2) := by
      rw [s4.2 2 (by decide)]; exact b32
    have b43 : E4.voices 3 = Voice.noteOn mf n4 v4 (E3.voices 3) := s4.1
    have a40 : (E4.voices 0).isActive = true := by
      rw [b40]; exact voice_noteOn_isActive mf n1 v1 _
    have a41 : (E4.voices 1).isActive = true := by
      rw [b41]; exact voice_noteOn_isActive mf n2 v2 _
    have a42 : (E4.voices 2).isActive = true := by
      rw [b42]; exact voice_noteOn_isActive mf n3 v3 _
    have a43 : (E4.voices 3).isActive = true := by
      rw [b43]; exact voice_noteOn_isActive mf n4 v4 _
    have ht4 : SynthEngine.targetIndex E4 = 0 := by
      simp [SynthEngine.targetIndex, a40, a41, a42, a43]
    have s5 := noteOn_step mf n5 v5 E4 0 ht4
    rw [← hE5] at s5
    have c50 : (E5.voices 0).note = n5 := by
      rw [s5.1]; exact voice_noteOn_note mf n5 v5 _
    have c51 : (E5.voices 1).note = n2 := by
      rw [s5.2 1 (by decide), b41]; exact voice_noteOn_note mf n2 v2 _
    have c52 : (E5.voices 2).note = n3 := by
      rw [s5.2 2 (by decide), b42]; exact voice_noteOn_note mf n3 v3 _
    have c53 : (E5.voices 3).note = n4 := by
      rw [s5.2 3 (by decide), b43]; exact voice_noteOn_note mf n4 v4 _
    refine ⟨a40, a41, a42, a43, ?_, ?_, ?_, ?_, c50, c51, c52, c53⟩
    · rw [b40]; exact voice_noteOn_note mf n1 v1 _
    · rw [b41]; exact voice_noteOn_note mf n2 v2 _
    · rw [b42]; exact voice_noteOn_note mf n3 v3 _
    · rw [b43]; exact voice_noteOn_note mf n4 v4 _

/-- Witness for C3 at the concrete idle engine and concrete notes. -/
theorem engine_c3_witness :
    ((SynthEngine.noteOn (fun _ => 1) 67 1 (SynthEngine.noteOn (fun _ => 1) 65 1
        (SynthEngine.noteOn (fun _ => 1) 64 1 (SynthEngine.noteOn (fun _ => 1) 62 1
        (SynthEngine.noteOn (fun _ => 1) 60 1 idleEngine))))).voices 0).note = 67 := by
  have hidle : ∀ i, (idleEngine.voices i).isActive = false := by
    intro i
    simp [idleEngine, defaultVoice, Voice.isActive]
  exact (engine_c3_voice_allocation.2.2 (fun _ => 1) idleEngine hidle
    60 62 64 65 67 1 1 1 1 1).2.2.2.2.2.2.2.2.1

theorem adsr_noteOff_of_idle (s : ADSR.State) (h : s.stage = ADSR.Stage.idle) :
    ADSR.noteOff s = s := by
  unfold ADSR.noteOff
  rw [if_neg (by simp [h])]

theorem engine_noteOff_voice_unchanged (e : SynthEngine) (n : ℤ) (i : Fin 4)
    (h : (e.voices i).isActive = false) :
    (SynthEngine.noteOff n e).voices i = e.voices i := by
  show (if (e.voices i).isActive = true ∧ (e.voices i).note = n then
      Voice.noteOff (e.voices i) else e.voices i) = e.voices i
  rw [if_neg]
  simp [h]

theorem voice_isActive_false_of_ampIdle (v : Voice)
    (h : v.ampEnv.stage = ADSR.Stage.idle) : v.isActive = false := by
  simp [Voice.isActive, ADSR.isActive, h]

/-- C10: `ADSR::noteOff()` on an envelope in the Idle stage changes nothing
at all; consequently `SynthEngine::noteOff(note)` and `allNotesOff()` leave
the amplitude envelope of a free (amplitude envelope Idle) voice in Idle and
never make it active, and more generally never turn any inactive voice
active. -/
theorem engine_c10_noteOff_frame (s : ADSR.State) (e : SynthEngine) (n : ℤ)
    (i : Fin 4) (hs : s.stage = ADSR.Stage.idle)
    (hv : (e.voices i).ampEnv.stage = ADSR.Stage.idle)
    (e2 : SynthEngine) (j : Fin 4) (hw : (e2.voices j).isActive = false) :
    ADSR.noteOff s = s ∧
    (((SynthEngine.noteOff n e).voices i).ampEnv.stage = ADSR.Stage.idle ∧
     ((SynthEngine.noteOff n e).voices i).isActive = false) ∧
    (((SynthEngine.allNotesOff e).voices i).ampEnv.stage = ADSR.Stage.idle ∧
     ((SynthEngine.allNotesOff e).voices i).isActive = false) ∧
    (((SynthEngine.noteOff n e2).voices j).isActive = false ∧
     ((SynthEngine.allNotesOff e2).voices j).isActive = false) := by
  have hvact : (e.voices i).isActive = false := voice_isActive_false_of_ampIdle _ hv
  have hunch := engine_noteOff_voice_unchanged e n i hvact
  have hanoE : ∀ (ee : SynthEngine) (k : Fin 4),
      (SynthEngine.allNotesOff ee).voices k = Voice.noteOff (ee.voices k) := by
    intro ee k
    rfl
  have hampIdle : (Voice.noteOff (e.voices i)).ampEnv.stage = ADSR.Stage.idle := by
    show (ADSR.noteOff (e.voices i).ampEnv).stage = ADSR.Stage.idle
    rw [adsr_noteOff_of_idle _ hv]
    exact hv
  refine ⟨adsr_noteOff_of_idle s hs, ⟨?_, ?_⟩, ⟨?_, ?_⟩, ⟨?_, ?_⟩⟩
  · rw [hunch]
    exact hv
  · rw [hunch]
    exact hvact
  · rw [hanoE e i]
    exact hampIdle
  · rw [hanoE e i]
    simp [Voice.noteOff, Voice.isActive, ADSR.isActive, adsr_noteOff_of_idle _ hv, hv]
  · exact (engine_noteOff_voice_unchanged e2 n j hw) ▸ hw
  · have hcase : (e2.voices j).active = false ∨
        (e2.voices j).ampEnv.stage = ADSR.Stage.idle := by
      cases hact : (e2.voices j).active
      · exact Or.inl rfl
      · right
        have h2 := hw
        simp [Voice.isActive, ADSR.isActive, hact] at h2
        exact h2
    rcases hcase with h2 | h2
    · rw [hanoE e2 j]
      simp [Voice.noteOff, Voice.isActive, h2]
    · rw [hanoE e2 j]
      simp [Voice.noteOff, Voice.isActive, ADSR.isActive,
        adsr_noteOff_of_idle _ h2, h2]

/-- Witness for C10 at a concrete idle envelope, the idle engine and slot 0. -/
theorem engine_c10_witness :
    ADSR.noteOff (defaultADSR (fun _ => 1/2)) = defaultADSR (fun _ => 1/2) ∧
    ((SynthEngine.noteOff 60 idleEngine).voices 0).isActive = false := by
  have h := engine_c10_noteOff_frame (defaultADSR (fun _ => 1/2)) idleEngine 60 0
    (by simp [defaultADSR, ADSR.updateCoefficients])
    (by simp [idleEngine, defaultVoice, defaultADSR, ADSR.updateCoefficients])
    idleEngine 0 (by simp [idleEngine, defaultVoice, Voice.isActive])
  exact ⟨h.1, h.2.1.2⟩

theorem clampv_time (x : ℚ) : clampv x (1/1000) 10 = max (1/1000) (min 10 x) :=
  clampv_eq_max_min x (1/1000) 10 (by norm_num)

theorem clampv_unit (x : ℚ) : clampv x 0 1 = max 0 (min 1 x) :=
  clampv_eq_max_min x 0 1 (by norm_num)

theorem clampv_res (x : ℚ) : clampv x 0 (99/100) = max 0 (min (99/100) x) :=
  clampv_eq_max_min x 0 (99/100) (by norm_num)

/-- C8: `loadPreset(index)` with `index < 0` or `index ≥ 10` is a strict
no-op on the whole engine state; with a valid index it applies the preset
wave mix to both oscillators of every voice, the filter parameters
(resonance and drive clamped by the filter setters, base cutoff as given),
both ADSR parameter sets (times clamped to [0.001, 10], sustain to [0, 1])
and the filter envelope depth to every voice, and sets the shared master
volume. -/
theorem engine_c8_loadPreset (coefOf sinF : ℚ → ℚ) (e : SynthEngine) (index : ℤ) :
    ((index < 0 ∨ 10 ≤ index) → SynthEngine.loadPreset coefOf sinF index e = e) ∧
    (0 ≤ index → index < 10 →
      (SynthEngine.loadPreset coefOf sinF index e).masterVolume
          = (PresetBank.getPreset index).masterVolume ∧
      ∀ i : Fin 4,
        ((SynthEngine.loadPreset coefOf sinF index e).voices i).osc1.mix
            = (PresetBank.getPreset index).waveMix ∧
        ((SynthEngine.loadPreset coefOf sinF index e).voices i).osc2.mix
            = (PresetBank.getPreset index).waveMix ∧
        ((SynthEngine.loadPreset coefOf sinF index e).voices i).baseCutoff
            = (PresetBank.getPreset index).filterCutoff ∧
        ((SynthEngine.loadPreset coefOf sinF index e).voices i).filter.resonance
            = max 0 (min (99/100) (PresetBank.getPreset index).filterResonance) ∧
        ((SynthEngine.loadPreset coefOf sinF index e).voices i).filter.q
            = 2 - 2 * max 0 (min (99/100) (PresetBank.getPreset index).filterResonance) ∧
        ((SynthEngine.loadPreset coefOf sinF index e).voices i).filter.drive
            = max 0 (min 1 (PresetBank.getPreset index).filterDrive) ∧
        ((SynthEngine.loadPreset coefOf sinF index e).voices i).ampEnv.attackTime
            = max (1/1000) (min 10 (PresetBank.getPreset index).ampAttack) ∧
        ((SynthEngine.loadPreset coefOf sinF index e).voices i).ampEnv.decayTime
            = max (1/1000) (min 10 (PresetBank.getPreset index).ampDecay) ∧
        ((SynthEngine.loadPreset coefOf sinF index e).voices i).ampEnv.sustainLevel
            = max 0 (min 1 (PresetBank.getPreset index).ampSustain) ∧
        ((SynthEngine.loadPreset coefOf sinF index e).voices i).ampEnv.releaseTime
            = max (1/1000) (min 10 (PresetBank.getPreset index).ampRelease) ∧
        ((SynthEngine.loadPreset coefOf sinF index e).voices i).filterEnv.attackTime
            = max (1/1000) (min 10 (PresetBank.getPreset index).filterAttack) ∧
        ((SynthEngine.loadPreset coefOf sinF index e).voices i).filterEnv.decayTime
            = max (1/1000) (min 10 (PresetBank.getPreset index).filterDecay) ∧
        ((SynthEngine.loadPreset coefOf sinF index e).voices i).filterEnv.sustainLevel
            = max 0 (min 1 (PresetBank.getPreset index).filterSustain) ∧
        ((SynthEngine.loadPreset coefOf sinF index e).voices i).filterEnv.releaseTime
            = max (1/1000) (min 10 (PresetBank.getPreset index).filterRelease) ∧
        ((SynthEngine.loadPreset coefOf sinF index e).voices i).filterEnvDepth
            = (PresetBank.getPreset index).filterEnvDepth) := by
  constructor
  · intro h
    unfold SynthEngine.loadPreset
    rw [if_pos]
    show index < 0 ∨ PresetBank.NUM_PRESETS ≤ index
    unfold PresetBank.NUM_PRESETS
    exact h
  · intro h0 h1
    have hcond : ¬ (index < 0 ∨ PresetBank.NUM_PRESETS ≤ index) := by
      unfold PresetBank.NUM_PRESETS
      rintro (hbad | hbad) <;> omega
    have hload : SynthEngine.loadPreset coefOf sinF index e
        = SynthEngine.applyPreset coefOf sinF (PresetBank.getPreset index)
            { e with currentPreset := index } := by
      unfold SynthEngine.loadPreset
      rw [if_neg hcond]
    rw [hload]
    constructor
    · rfl
    · intro i
      refine ⟨rfl, rfl, rfl, ?_, ?_, ?_, ?_, ?_, ?_, ?_, ?_, ?_, ?_, ?_, rfl⟩ <;>
        (simp only [SynthEngine.applyPreset, Voice.setFilterEnvDepth, Voice.setFilterADSR,
          Voice.setAmpADSR, Voice.setFilterDrive, Voice.setFilterResonance,
          Voice.setFilterCutoff, Voice.setWaveMix, ADSR.setAttack, ADSR.setDecay,
          ADSR.setSustain, ADSR.setRelease, ADSR.updateCoefficients,
          StateVariableFilter.setResonance, StateVariableFilter.setDrive,
          StateVariableFilter.updateCoefficients, MixingOscillator.setMixW]
         first
           | rfl
           | rw [clampv_time]
           | rw [clampv_unit]
           | rw [clampv_res])

/-- Witness for C8: an out of range index is a no-op on the idle engine, and
loading preset 4 (Kick) sets its master volume 1.0. -/
theorem engine_c8_witness :
    SynthEngine.loadPreset (fun _ => 1/2) (fun _ => 0) (-1) idleEngine = idleEngine ∧
    (SynthEngine.loadPreset (fun _ => 1/2) (fun _ => 0) 4 idleEngine).masterVolume
        = (PresetBank.getPreset 4).masterVolume :=
  ⟨(engine_c8_loadPreset (fun _ => 1/2) (fun _ => 0) idleEngine (-1)).1
      (Or.inl (by norm_num))
  , ((engine_c8_loadPreset (fun _ => 1/2) (fun _ => 0) idleEngine 4).2
      (by norm_num) (by norm_num)).1⟩

namespace Delay

/-- State of the stereo Delay (delay.hpp): the two ring buffers, the write
position, the delay length in samples and the three parameters. -/
structure State where
  bufferL : List ℚ
  bufferR : List ℚ
  writePos : ℕ
  delaySamples : ℕ
  delayTime : ℚ
  feedback : ℚ
  mix : ℚ
  deriving DecidableEq, Repr

/-- `Delay::setFeedback`: clamp to [0, 0.95]. -/
def setFeedback (fb : ℚ) (s : State) : State :=
  { s with feedback := clampv fb 0 (95/100) }

/-- `Delay::setMix`: clamp to [0, 1]. -/
def setMix (m : ℚ) (s : State) : State := { s with mix := clampv m 0 1 }

/-- `Delay::process`: read at `writePos - delaySamples` (wrapped), write the
input plus recirculated feedback, crossfade dry against delayed, advance the
write position. -/
def process (l r : ℚ) (s : State) : (ℚ × ℚ) × State :=
  let size := s.bufferL.length
  let readPos := (s.writePos + size - s.delaySamples) % size
  let delayedL := s.bufferL.getD readPos 0
  let delayedR := s.bufferR.getD readPos 0
  let bl := s.bufferL.set s.writePos (l + delayedL * s.feedback)
  let br := s.bufferR.set s.writePos (r + delayedR * s.feedback)
  ((l * (1 - s.mix) + delayedL * s.mix, r * (1 - s.mix) + delayedR * s.mix),
   { s with bufferL := bl, bufferR := br, writePos := (s.writePos + 1) % size })

end Delay

namespace Chorus

/-- State of the stereo Chorus (chorus.hpp).  The two internal LFO objects
are modelled by passing their per call outputs into `process` (they only feed
the wet tap position). -/
structure State where
  bufferL : List ℚ
  bufferR : List ℚ
  writePos : ℕ
  rate : ℚ
  depth : ℚ
  mix : ℚ
  baseDelay : ℚ
  deriving DecidableEq, Repr

/-- `Chorus::setMix`: clamp to [0, 1]. -/
def setMix (m : ℚ) (s : State) : State := { s with mix := clampv m 0 1 }

/-- `Chorus::readInterpolated`: fractional tap with linear interpolation;
the truncation `static_cast<size_t>` on the (nonnegative) read position is
the floor. -/
def readInterpolated (buffer : List ℚ) (writePos : ℕ) (delayMs : ℚ) : ℚ :=
  let delaySamples := delayMs * 192000 / 1000
  let readPosF0 := (writePos : ℚ) - delaySamples
  let readPosF := if readPosF0 < 0 then readPosF0 + buffer.length else readPosF0
  let idx0 := (Int.toNat ⌊readPosF⌋) % buffer.length
  let idx1 := (idx0 + 1) % buffer.length
  let frac := readPosF - ⌊readPosF⌋
  buffer.getD idx0 0 * (1 - frac) + buffer.getD idx1 0 * frac

/-- `Chorus::process`.  `lfoL` and `lfoR` are the outputs of the two internal
LFO objects for this call. -/
def process (lfoL lfoR l r : ℚ) (s : State) : (ℚ × ℚ) × State :=
  let bl := s.bufferL.set s.writePos l
  let br := s.bufferR.set s.writePos r
  let modL := lfoL * s.depth * 3
  let modR := lfoR * s.depth * 3
  let chorusL := readInterpolated bl s.writePos (s.baseDelay + modL)
  let chorusR := readInterpolated br s.writePos (s.baseDelay + modR)
  ((l * (1 - s.mix) + chorusL * s.mix, r * (1 - s.mix) + chorusR * s.mix),
   { s with bufferL := bl, bufferR := br, writePos := (s.writePos + 1) % bl.length })

end Chorus

namespace Reverb

/-- One comb filter line of the Schroeder reverb (reverb.hpp). -/
structure CombState where
  buffer : List ℚ
  pos : ℕ
  feedback : ℚ
  deriving DecidableEq, Repr

/-- One allpass line of the Schroeder reverb. -/
structure APState where
  buffer : List ℚ
  pos : ℕ
  deriving DecidableEq, Repr

/-- State of the Reverb: four parallel combs, two series allpasses, mix and
decay. -/
structure State where
  comb0 : CombState
  comb1 : CombState
  comb2 : CombState
  comb3 : CombState
  ap0 : APState
  ap1 : APState
  mix : ℚ
  decay : ℚ
  deriving DecidableEq, Repr

/-- `Reverb::setMix`: clamp to [0, 1]. -/
def setMix (m : ℚ) (s : State) : State := { s with mix := clampv m 0 1 }

/-- `Reverb::processComb`. -/
def processComb (input : ℚ) (c : CombState) : ℚ × CombState :=
  let out := c.buffer.getD c.pos 0
  (out, { c with buffer := c.buffer.set c.pos (input + out * c.feedback),
                 pos := (c.pos + 1) % c.buffer.length })

/-- `Reverb::processAllpass` with the fixed gain 0.7. -/
def processAllpass (input : ℚ) (a : APState) : ℚ × APState :=
  let g : ℚ := 7/10
  let delayed := a.buffer.getD a.pos 0
  (-g * input + delayed,
   { a with buffer := a.buffer.set a.pos (input + g * delayed),
            pos := (a.pos + 1) % a.buffer.length })

/-- `Reverb::process`: average the stereo input to mono, run the four combs
in parallel (sum times 0.25), the two allpasses in series, and crossfade both
channels against the mono wet signal. -/
def process (l r : ℚ) (s : State) : (ℚ × ℚ) × State :=
  let input := (l + r) * (1/2)
  let r0 := processComb input s.comb0
  let r1 := processComb input s.comb1
  let r2 := processComb input s.comb2
  let r3 := processComb input s.comb3
  let combOut := (r0.1 + r1.1 + r2.1 + r3.1) * (1/4)
  let a0 := processAllpass combOut s.ap0
  let a1 := processAllpass a0.1 s.ap1
  ((l * (1 - s.mix) + a1.1 * s.mix, r * (1 - s.mix) + a1.1 * s.mix),
   { s with comb0 := r0.2, comb1 := r1.2, comb2 := r2.2, comb3 := r3.2,
            ap0 := a0.2, ap1 := a1.2 })

end Reverb

/-- C7: with the mix parameter at 0, each of the three effects returns its
input samples exactly, for every internal buffer state and every input pair
(pure dry passthrough; the wet path and buffer writes still run but do not
reach the output). -/
theorem effects_c7_dry_passthrough :
    (∀ (s : Delay.State) (l r : ℚ), s.mix = 0 →
        (Delay.process l r s).1 = (l, r)) ∧
    (∀ (s : Chorus.State) (lfoL lfoR l r : ℚ), s.mix = 0 →
        (Chorus.process lfoL lfoR l r s).1 = (l, r)) ∧
    (∀ (s : Reverb.State) (l r : ℚ), s.mix = 0 →
        (Reverb.process l r s).1 = (l, r)) := by
  refine ⟨?_, ?_, ?_⟩
  · intro s l r h
    unfold Delay.process
    dsimp only
    rw [h]
    norm_num
  · intro s lfoL lfoR l r h
    unfold Chorus.process
    dsimp only
    rw [h]
    norm_num
  · intro s l r h
    unfold Reverb.process
    dsimp only
    rw [h]
    norm_num

/-- Witness for C7 at concrete small buffer states with mix 0. -/
theorem effects_c7_witness :
    (Delay.process 1 2
        { bufferL := [5, 6, 7], bufferR := [8, 9, 10], writePos := 0,
          delaySamples := 2, delayTime := 500, feedback := 1/2, mix := 0 }).1 = (1, 2) ∧
    (Chorus.process (1/3) (1/4) 1 2
        { bufferL := [5, 6, 7], bufferR := [8, 9, 10], writePos := 0,
          rate := 1/2, depth := 1/2, mix := 0, baseDelay := 7 }).1 = (1, 2) ∧
    (Reverb.process 1 2
        { comb0 := { buffer := [1, 2], pos := 0, feedback := 1/2 }
          comb1 := { buffer := [3, 4], pos := 0, feedback := 1/2 }
          comb2 := { buffer := [5, 6], pos := 0, feedback := 1/2 }
          comb3 := { buffer := [7, 8], pos := 0, feedback := 1/2 }
          ap0 := { buffer := [1, 2, 3], pos := 0 }
          ap1 := { buffer := [4, 5, 6], pos := 0 }
          mix := 0
          decay := 1/2 }).1 = (1, 2) :=
  ⟨effects_c7_dry_passthrough.1 _ 1 2 rfl,
   effects_c7_dry_passthrough.2.1 _ (1/3) (1/4) 1 2 rfl,
   effects_c7_dry_passthrough.2.2 _ 1 2 rfl⟩

end FPGASynth
